import Mathlib

/-! Node validation, registration and heartbeat (pritunl-zero, `node/node.go`).

A shallow embedding of `Node.Validate`, `Node.Format`, `Node.update`, one cycle
of `Node.keepalive` and `Node.Init`, with the properties of the specification
stated over it.

Conventions of the embedding:

* a method with a pointer receiver `n *Node` becomes a function that takes the
  record and returns the record as the method leaves it;
* a Go `int` is an `Int` (the code only compares the port, it never computes
  with it, so no overflow is involved);
* a `float64` is only ever copied or set to the literal `0`; it is represented
  by its IEEE-754 bit pattern, a natural number, `0` being the pattern of `0`;
* a `time.Time` is a natural number of clock ticks;
* a Go slice that may be `nil` is an `Option (List _)`, `none` being `nil`.
-/

namespace PritunlZero

/-- The type `bson.ObjectId`, declared as `type ObjectId string` and holding raw
bytes: it is the list of its bytes, ordered as Go orders strings (lexicographically,
byte by byte). -/
abbrev ObjectId := List Nat

/-- The type `time.Time`, as a number of clock ticks; the zero value is `0`. -/
abbrev Time := Nat

/-- The type `float64`, as its bit pattern; the literal `0` is the pattern `0`. -/
abbrev Float64 := Nat

/-- Modelled from the spec: the constant `Management` of the package's constants
file, "the default management role". -/
def Management : String := "management"

/-- Modelled from the spec: the constant `ManagementProxy` of the package's
constants file, "the management-proxy role". -/
def ManagementProxy : String := "management-proxy"

/-- Modelled from the spec: `utils.SortObjectIds`, which puts a sequence of ids
into "canonical sorted order (stable, deterministic; ... not to deduplicate)".
Ids are compared as Go compares the strings they are. -/
def SortObjectIds (ids : List ObjectId) : List ObjectId :=
  ids.insertionSort (fun a b => a ≤ b)

/-- The type `errortypes.ErrorData`: a validation failure as data. -/
structure ErrorData where
  Error : String
  Message : String
deriving DecidableEq, Repr

/-- The record `type Node struct` of `node/node.go`. -/
structure Node where
  Id : ObjectId
  Name : String
  Typ : String
  Timestamp : Time
  Port : Int
  Protocol : String
  ManagementDomain : String
  Memory : Float64
  Load1 : Float64
  Load5 : Float64
  Load15 : Float64
  Services : Option (List ObjectId)
deriving DecidableEq, Repr

/-- The method `func (n *Node) Format()`: sorts the services in place (a `nil`
slice stays `nil`). -/
def Node.Format (n : Node) : Node :=
  { n with Services := n.Services.map SortObjectIds }

/-- What `Validate` leaves behind: the record, `errData` and `err`. -/
structure ValidateResult where
  node : Node
  errData : Option ErrorData
  err : Option String
deriving DecidableEq, Repr

/-- The method `func (n *Node) Validate(db) (errData, err)`. -/
def Node.Validate (n : Node) : ValidateResult :=
  -- if n.Services == nil { n.Services = []bson.ObjectId{} }
  let n1 : Node := if n.Services = none then { n with Services := some [] } else n
  if n1.Protocol ≠ "http" ∧ n1.Protocol ≠ "https" then
    { node := n1
      errData := some { Error := "node_protocol_invalid",
                        Message := "Invalid node server protocol" }
      err := none }
  else if n1.Port < 1 ∨ n1.Port > 65535 then
    { node := n1
      errData := some { Error := "node_port_invalid",
                        Message := "Invalid node server port" }
      err := none }
  else
    -- if n.Type != ManagementProxy { n.ManagementDomain = "" }
    let n2 : Node := if n1.Typ ≠ ManagementProxy then { n1 with ManagementDomain := "" } else n1
    { node := n2.Format, errData := none, err := none }

/-! ## The Directory Store, as the code uses it -/

/-- An error as the driver returns it: `mgo.ErrNotFound` or anything else. -/
inductive MgoError where
  | ErrNotFound
  | Other (msg : String)
deriving DecidableEq, Repr

/-- An error as the `database` package returns it: `*database.NotFoundError`
or another error type. -/
inductive DbError where
  | NotFoundError
  | DatabaseError (msg : String)
deriving DecidableEq, Repr

/-- Modelled from the spec: `database.ParseError`, which turns a driver error
into an error of the `database` package; "not found" stays "not found" and an
error is never turned into success. -/
def ParseError : MgoError → DbError
  | .ErrNotFound => .NotFoundError
  | .Other msg => .DatabaseError msg

/-- One entry of a `$set` document, for the fields the code sets. -/
inductive SetField where
  | id (v : ObjectId)
  | name (v : String)
  | typ (v : String)
  | timestamp (v : Time)
  | memory (v : Float64)
  | load1 (v : Float64)
  | load5 (v : Float64)
  | load15 (v : Float64)
deriving DecidableEq, Repr

/-- The effect of one `$set` entry on a stored document. -/
def SetField.assign : SetField → Node → Node
  | .id v, r => { r with Id := v }
  | .name v, r => { r with Name := v }
  | .typ v, r => { r with Typ := v }
  | .timestamp v, r => { r with Timestamp := v }
  | .memory v, r => { r with Memory := v }
  | .load1 v, r => { r with Load1 := v }
  | .load5 v, r => { r with Load5 := v }
  | .load15 v, r => { r with Load15 := v }

/-- The effect of a whole `$set` document. -/
def applySet (fields : List SetField) (r : Node) : Node :=
  fields.foldl (fun acc f => f.assign acc) r

/-- The Go zero value of `Node`, which is also what a stored document without
any of the fields decodes to. -/
def zeroNode : Node :=
  { Id := [], Name := "", Typ := "", Timestamp := 0, Port := 0, Protocol := "",
    ManagementDomain := "", Memory := 0, Load1 := 0, Load5 := 0, Load15 := 0,
    Services := none }

/-- Modelled from the spec: the Directory Store, "a keyed document store
supporting point lookup by identifier, atomic conditional field updates, and
upsert-by-identifier". It is the list of the documents of the nodes collection;
a document is read through the `Node` it decodes to (a field it lacks reads as
the zero value). -/
abbrev Store := List Node

/-- Modelled from the spec: point lookup by identifier. -/
def Store.findId (db : Store) (id : ObjectId) : Option Node :=
  db.find? (fun r => decide (r.Id = id))

/-- Modelled from the spec: rewrite the document with the identifier, if any. -/
def Store.modifyId : Store → ObjectId → (Node → Node) → Store
  | [], _, _ => []
  | r :: rest, id, f =>
    if r.Id = id then f r :: rest else r :: Store.modifyId rest id f

/-- Modelled from the spec: `database.Collection.FindOneId`,
"findByIdentifier(id) -> record | not-found". `fault` is the outcome of the
round trip to the store: `some msg` when the store cannot be reached or answers
with an unexpected error. -/
def Store.FindOneId (db : Store) (fault : Option String) (id : ObjectId) :
    Except DbError Node :=
  match fault with
  | some msg => .error (.DatabaseError msg)
  | none =>
    match db.findId id with
    | some r => .ok r
    | none => .error .NotFoundError

/-- The `mgo.Change` of a find-and-modify, with the fields the code fills in. -/
structure Change where
  Update : List SetField
  Upsert : Bool
  ReturnNew : Bool
deriving DecidableEq, Repr

/-- Modelled from the spec: `Query.Apply` of the driver on the query
`{"_id": id}`, "conditionalUpdate(id, fieldSet) -> updated record | not-found".
It returns the error, the document handed back for decoding into the result
argument (if any), and the store afterwards. -/
def Store.Apply (db : Store) (fault : Option String) (id : ObjectId) (change : Change) :
    Option MgoError × Option Node × Store :=
  match fault with
  | some msg => (some (.Other msg), none, db)
  | none =>
    match db.findId id with
    | some r =>
      (none, some (if change.ReturnNew then applySet change.Update r else r),
        db.modifyId id (applySet change.Update))
    | none =>
      if change.Upsert then
        let created := applySet change.Update { zeroNode with Id := id }
        (none, if change.ReturnNew then some created else none, db ++ [created])
      else
        (some .ErrNotFound, none, db)

/-- Modelled from the spec: `Collection.UpsertId` of the driver,
"upsertByIdentifier(id, fieldSet)": "creating it if absent, overwriting those
fields if present". -/
def Store.UpsertId (db : Store) (fault : Option String) (id : ObjectId)
    (fields : List SetField) : Option MgoError × Store :=
  match fault with
  | some msg => (some (.Other msg), db)
  | none =>
    match db.findId id with
    | some _ => (none, db.modifyId id (applySet fields))
    | none => (none, db ++ [applySet fields { zeroNode with Id := id }])

/-! ## The heartbeat -/

/-- The method `func (n *Node) update(db) (err error)`: the find-and-modify
(`Apply(change, n)`) decodes the returned document into `n`. -/
def Node.update (n : Node) (db : Store) (fault : Option String) :
    Option MgoError × Node × Store :=
  let change : Change :=
    { Update := [.timestamp n.Timestamp, .memory n.Memory, .load1 n.Load1,
                 .load5 n.Load5, .load15 n.Load15]
      Upsert := false
      ReturnNew := true }
  match db.Apply fault n.Id change with
  | (some err, _, db1) => (some err, n, db1)
  | (none, some doc, db1) => (none, doc, db1)
  | (none, none, db1) => (none, n, db1)

/-- The type `utils.LoadStat`, the result of `utils.LoadAverage`. -/
structure LoadStat where
  Load1 : Float64
  Load5 : Float64
  Load15 : Float64
deriving DecidableEq, Repr

/-- What one heartbeat cycle leaves behind: the in-memory node, the store and
the messages logged. -/
structure CycleResult where
  node : Node
  db : Store
  log : List String
deriving DecidableEq, Repr

/-- One iteration of the `for` loop of `func (n *Node) keepalive()`, as a
function of the clock reading `now`, the result `mem` of `utils.MemoryUsed()`,
the result `load` of `utils.LoadAverage()` and the outcome `fault` of the round
trip to the store. -/
def Node.keepaliveCycle (n : Node) (db : Store) (now : Time)
    (mem : Except String Float64) (load : Except String LoadStat)
    (fault : Option String) : CycleResult :=
  let n1 : Node := { n with Timestamp := now }
  let (n2, log2) : Node × List String :=
    match mem with
    | .error _ => ({ n1 with Memory := 0 }, ["node: Failed to get memory"])
    | .ok m => ({ n1 with Memory := m }, [])
  let (n3, log3) : Node × List String :=
    match load with
    | .error _ =>
      ({ n2 with Load1 := 0, Load5 := 0, Load15 := 0 }, log2 ++ ["node: Failed to get load"])
    | .ok l =>
      ({ n2 with Load1 := l.Load1, Load5 := l.Load5, Load15 := l.Load15 }, log2)
  match n3.update db fault with
  | (some _, n4, db1) => { node := n4, db := db1, log := log3 ++ ["node: Failed to update node"] }
  | (none, n4, db1) => { node := n4, db := db1, log := log3 }

/-! ## Registration -/

/-- What `Init` acts on besides the node: the store, the change notifications
handed to `event.PublishDispatch` so far, the package variable `Self` (`none`
is `nil`) and the nodes whose heartbeat loop has been started with
`go n.keepalive()`. -/
structure World where
  db : Store
  events : List String
  Self : Option Node
  keepalives : List ObjectId
deriving DecidableEq, Repr

/-- What `Init` reads from outside: the outcomes of the two round trips to the
store, the name `utils.RandName()` returns and the clock reading. -/
structure InitEnv where
  lookupFault : Option String
  upsertFault : Option String
  randName : String
  now : Time
deriving DecidableEq, Repr

/-- What `Init` leaves behind: the node, the returned error and the world. -/
structure InitResult where
  node : Node
  err : Option DbError
  world : World
deriving DecidableEq, Repr

/-- The method `func (n *Node) Init() (err error)`. -/
def Node.Init (n : Node) (w : World) (env : InitEnv) : InitResult :=
  match w.db.FindOneId env.lookupFault n.Id with
  -- default: return
  | .error (.DatabaseError msg) => { node := n, err := some (.DatabaseError msg), world := w }
  -- no error (the record is decoded into n), or case *database.NotFoundError: err = nil
  | found =>
    let n1 : Node :=
      match found with
      | .ok doc => doc
      | .error _ => n
    let n2 : Node := if n1.Name = "" then { n1 with Name := env.randName } else n1
    let n3 : Node := if n2.Typ = "" then { n2 with Typ := Management } else n2
    match w.db.UpsertId env.upsertFault n3.Id
        [.id n3.Id, .name n3.Name, .typ n3.Typ, .timestamp env.now] with
    | (some err, db1) => { node := n3, err := some (ParseError err), world := { w with db := db1 } }
    | (none, db1) =>
      -- event.PublishDispatch(db, "node.change"); Self = n; go n.keepalive()
      { node := n3
        err := none
        world :=
          { db := db1
            events := w.events ++ ["node.change"]
            Self := some n3
            keepalives := w.keepalives ++ [n3.Id] } }

/-- The fields of a record that are not liveness fields: identifier, name,
type, port, protocol, management domain and services. -/
def Node.identity (r : Node) :
    ObjectId × String × String × Int × String × String × Option (List ObjectId) :=
  (r.Id, r.Name, r.Typ, r.Port, r.Protocol, r.ManagementDomain, r.Services)

/-- The three load fields of a record. -/
def Node.loads (r : Node) : Float64 × Float64 × Float64 :=
  (r.Load1, r.Load5, r.Load15)

/-! ## Concrete records used below -/

/-- A management node with valid protocol and port, a management domain and
unsorted services. -/
def sampleNode : Node :=
  { Id := [1], Name := "n", Typ := "management", Timestamp := 0, Port := 443,
    Protocol := "https", ManagementDomain := "x.example.com", Memory := 0,
    Load1 := 0, Load5 := 0, Load15 := 0, Services := some [[2], [1]] }

/-- A record stored under the identifier of `sampleNode`, with another name
and port. -/
def storedNode : Node :=
  { sampleNode with Name := "renamed", Port := 8443, Timestamp := 3 }

/-- The node `sampleNode` with the protocol "ftp". -/
def ftpNode : Node := { sampleNode with Protocol := "ftp" }

/-- A management-proxy node with a management domain. -/
def proxyNode : Node := { sampleNode with Typ := "management-proxy" }

/-- A candidate without name and type. -/
def blankNode : Node := { sampleNode with Name := "", Typ := "" }

/-- A world with an empty store, nothing published, no `Self` and no heartbeat. -/
def emptyWorld : World := { db := [], events := [], Self := none, keepalives := [] }

/-- A world whose store holds `storedNode`. -/
def storedWorld : World := { emptyWorld with db := [storedNode] }

/-- A store that answers both round trips; the generated name is "gen". -/
def calmEnv : InitEnv := { lookupFault := none, upsertFault := none, randName := "gen", now := 5 }

/-! ## Validation -/

/-- The result of `SortObjectIds` is in ascending order. -/
theorem SortObjectIds_sorted (ids : List ObjectId) :
    List.Sorted (fun a b => a ≤ b) (SortObjectIds ids) :=
  List.sorted_insertionSort (fun a b : ObjectId => a ≤ b) ids

/-- The result of `SortObjectIds` holds the ids of its input. -/
theorem SortObjectIds_perm (ids : List ObjectId) : (SortObjectIds ids).Perm ids :=
  List.perm_insertionSort (fun a b : ObjectId => a ≤ b) ids

/-- Sorting a second time changes nothing. -/
theorem SortObjectIds_idem (ids : List ObjectId) :
    SortObjectIds (SortObjectIds ids) = SortObjectIds ids :=
  List.Sorted.insertionSort_eq (SortObjectIds_sorted ids)

/-- C1: `Validate` returns no validation failure exactly when the protocol is
"http" or "https" and the port lies in [1, 65535]; hence with a valid protocol
it succeeds iff the port is in range, and with a port in range it succeeds iff
the protocol is valid. `err` is never set. -/
theorem Validate_ok_iff (n : Node) :
    ((n.Validate).errData = none ↔
        (n.Protocol = "http" ∨ n.Protocol = "https") ∧ 1 ≤ n.Port ∧ n.Port ≤ 65535) ∧
    ((n.Protocol = "http" ∨ n.Protocol = "https") →
        ((n.Validate).errData = none ↔ 1 ≤ n.Port ∧ n.Port ≤ 65535)) ∧
    ((1 ≤ n.Port ∧ n.Port ≤ 65535) →
        ((n.Validate).errData = none ↔ (n.Protocol = "http" ∨ n.Protocol = "https"))) ∧
    (n.Validate).err = none := by
  have key : (n.Validate).errData = none ↔
      (n.Protocol = "http" ∨ n.Protocol = "https") ∧ 1 ≤ n.Port ∧ n.Port ≤ 65535 := by
    unfold Node.Validate
    by_cases hs : n.Services = none <;> by_cases h1 : n.Protocol = "http" <;>
      by_cases h2 : n.Protocol = "https" <;> by_cases h3 : n.Port < 1 <;>
      by_cases h4 : n.Port > 65535 <;> simp [hs, h1, h2, h3, h4] <;> omega
  refine ⟨key, ?_, ?_, ?_⟩
  · intro hp
    rw [key]
    exact ⟨fun h => h.2, fun h => ⟨hp, h⟩⟩
  · intro hp
    rw [key]
    exact ⟨fun h => h.1, fun h => ⟨h, hp⟩⟩
  · unfold Node.Validate
    by_cases hs : n.Services = none <;> by_cases h1 : n.Protocol = "http" <;>
      by_cases h2 : n.Protocol = "https" <;> by_cases h3 : n.Port < 1 <;>
      by_cases h4 : n.Port > 65535 <;> simp [hs, h1, h2, h3, h4]

/-- Witness of C1: the node `sampleNode` has a valid protocol, and it validates
iff its port is in range. -/
theorem Validate_ok_iff_witness :
    (sampleNode.Protocol = "http" ∨ sampleNode.Protocol = "https") ∧
    ((sampleNode.Validate).errData = none ↔ 1 ≤ sampleNode.Port ∧ sampleNode.Port ≤ 65535) :=
  ⟨by decide, (Validate_ok_iff sampleNode).2.1 (by decide)⟩

/-- C2: the failure kind follows the rule order. A protocol that is neither
"http" nor "https" gives "node_protocol_invalid" whatever the port is; a valid
protocol with a port below 1 or above 65535 gives "node_port_invalid". -/
theorem Validate_failure_kind (n : Node) :
    ((n.Protocol ≠ "http" ∧ n.Protocol ≠ "https") →
        (n.Validate).errData.map ErrorData.Error = some "node_protocol_invalid") ∧
    ((n.Protocol = "http" ∨ n.Protocol = "https") → (n.Port < 1 ∨ n.Port > 65535) →
        (n.Validate).errData.map ErrorData.Error = some "node_port_invalid") := by
  constructor
  · rintro ⟨h1, h2⟩
    unfold Node.Validate
    by_cases hs : n.Services = none <;> simp [hs, h1, h2]
  · intro hp hport
    have hp2 : ¬ (n.Protocol ≠ "http" ∧ n.Protocol ≠ "https") := by
      rintro ⟨h1, h2⟩
      rcases hp with h | h
      · exact h1 h
      · exact h2 h
    unfold Node.Validate
    by_cases hs : n.Services = none <;> simp only [hs, if_true, if_false, hp2, hport] <;> rfl

/-- Witness of C2: the scenarios "ftp" with port 443, "ftp" with port 70000 and
"https" with port 70000. -/
theorem Validate_failure_kind_witness :
    (ftpNode.Validate).errData.map ErrorData.Error = some "node_protocol_invalid" ∧
    (Node.Validate { ftpNode with Port := 70000 }).errData.map ErrorData.Error
      = some "node_protocol_invalid" ∧
    (Node.Validate { sampleNode with Port := 70000 }).errData.map ErrorData.Error
      = some "node_port_invalid" :=
  ⟨(Validate_failure_kind ftpNode).1 (by decide),
   (Validate_failure_kind { ftpNode with Port := 70000 }).1 (by decide),
   (Validate_failure_kind { sampleNode with Port := 70000 }).2 (by decide) (by decide)⟩

/-- C3, as stated, fails: the node `ftpNode` is not a management-proxy node,
and `Validate` (which rejects its protocol) leaves its management domain
"x.example.com" in place. -/
theorem Validate_domain_not_cleared_on_failure :
    ftpNode.Typ ≠ ManagementProxy ∧
    (ftpNode.Validate).node.ManagementDomain = "x.example.com" ∧
    (ftpNode.Validate).node.ManagementDomain ≠ "" := by
  decide

/-- C3, amended: for a node whose type is not the management-proxy role,
`Validate` leaves the management domain empty whenever it returns no validation
failure; when it returns a failure, the management domain is as it was. -/
theorem Validate_clears_domain (n : Node) (ht : n.Typ ≠ ManagementProxy) :
    ((n.Validate).errData = none → (n.Validate).node.ManagementDomain = "") ∧
    ((n.Validate).errData ≠ none →
        (n.Validate).node.ManagementDomain = n.ManagementDomain) := by
  unfold Node.Validate
  by_cases hs : n.Services = none <;>
    by_cases hp : (n.Protocol ≠ "http" ∧ n.Protocol ≠ "https") <;>
    by_cases hport : (n.Port < 1 ∨ n.Port > 65535) <;>
    simp [hs, hp, hport, ht, Node.Format]

/-- Witness of C3: `sampleNode` has type "management" and validates; its
management domain "x.example.com" is cleared. -/
theorem Validate_clears_domain_witness :
    sampleNode.Typ ≠ ManagementProxy ∧ (sampleNode.Validate).errData = none ∧
    (sampleNode.Validate).node.ManagementDomain = "" :=
  ⟨by decide, by decide, (Validate_clears_domain sampleNode (by decide)).1 (by decide)⟩

/-- C4, as stated, fails: `Validate` rejects the protocol of `ftpNode` and
leaves its services in the order given, which is not ascending. -/
theorem Validate_services_unsorted_on_failure :
    (ftpNode.Validate).node.Services = some [[2], [1]] ∧
    ¬ List.Sorted (fun a b : ObjectId => a ≤ b) [[2], [1]] := by
  decide

/-- C4, amended: after `Validate` the services sequence is never nil, whatever
the input (a nil input becomes the empty sequence), and it holds the same ids
as the input; whenever `Validate` returns no validation failure it is in
ascending order. -/
theorem Validate_services (n : Node) :
    (∃ l, (n.Validate).node.Services = some l ∧ l.Perm (n.Services.getD [])) ∧
    ((n.Validate).errData = none →
      ∃ l, (n.Validate).node.Services = some l ∧
        List.Sorted (fun a b : ObjectId => a ≤ b) l) := by
  unfold Node.Validate
  cases hs : n.Services with
  | none =>
    by_cases hp : (n.Protocol ≠ "http" ∧ n.Protocol ≠ "https") <;>
      by_cases hport : (n.Port < 1 ∨ n.Port > 65535) <;>
      by_cases ht : n.Typ = ManagementProxy <;>
      simp [hp, hport, ht, Node.Format, SortObjectIds]
  | some l =>
    by_cases hp : (n.Protocol ≠ "http" ∧ n.Protocol ≠ "https") <;>
      by_cases hport : (n.Port < 1 ∨ n.Port > 65535) <;>
      by_cases ht : n.Typ = ManagementProxy <;>
      simp [hs, hp, hport, ht, Node.Format, SortObjectIds_perm, SortObjectIds_sorted]

/-- Witness of C4: `sampleNode` validates, and its services come out sorted. -/
theorem Validate_services_witness :
    (sampleNode.Validate).errData = none ∧
    ∃ l, (sampleNode.Validate).node.Services = some l ∧
      List.Sorted (fun a b : ObjectId => a ≤ b) l :=
  ⟨by decide, (Validate_services sampleNode).2 (by decide)⟩

/-- C5: `Validate` is idempotent. Run on the record a first run produced, it
returns the same outcome and leaves the record, the order of the services
included, exactly as the first run left it. -/
theorem Validate_idempotent (n : Node) :
    (n.Validate).node.Validate = n.Validate := by
  unfold Node.Validate
  cases hs : n.Services with
  | none =>
    by_cases hp : (n.Protocol ≠ "http" ∧ n.Protocol ≠ "https") <;>
      by_cases hport : (n.Port < 1 ∨ n.Port > 65535) <;>
      by_cases ht : n.Typ = ManagementProxy <;>
      simp [hp, hport, ht, Node.Format, SortObjectIds]
  | some l =>
    by_cases hp : (n.Protocol ≠ "http" ∧ n.Protocol ≠ "https") <;>
      by_cases hport : (n.Port < 1 ∨ n.Port > 65535) <;>
      by_cases ht : n.Typ = ManagementProxy <;>
      simp [hs, hp, hport, ht, Node.Format, SortObjectIds_idem]

/-- C6: for a node whose type is the management-proxy role, `Validate` leaves
the management domain equal to its input value, whether it succeeds or not. -/
theorem Validate_keeps_proxy_domain (n : Node) (ht : n.Typ = ManagementProxy) :
    (n.Validate).node.ManagementDomain = n.ManagementDomain := by
  unfold Node.Validate
  by_cases hs : n.Services = none <;>
    by_cases hp : (n.Protocol ≠ "http" ∧ n.Protocol ≠ "https") <;>
    by_cases hport : (n.Port < 1 ∨ n.Port > 65535) <;>
    simp [hs, hp, hport, ht, Node.Format]

/-- Witness of C6: the management-proxy node `proxyNode` keeps its domain
"x.example.com", when it validates and when its protocol is rejected. -/
theorem Validate_keeps_proxy_domain_witness :
    (proxyNode.Validate).errData = none ∧
    (proxyNode.Validate).node.ManagementDomain = "x.example.com" ∧
    (Node.Validate { proxyNode with Protocol := "ftp" }).errData ≠ none ∧
    (Node.Validate { proxyNode with Protocol := "ftp" }).node.ManagementDomain
      = "x.example.com" :=
  ⟨by decide, Validate_keeps_proxy_domain proxyNode (by decide), by decide,
   Validate_keeps_proxy_domain { proxyNode with Protocol := "ftp" } (by decide)⟩

/-! ## The store -/

/-- A record found under an identifier carries that identifier. -/
theorem Store.findId_id {db : Store} {id : ObjectId} {r : Node}
    (h : db.findId id = some r) : r.Id = id := by
  have := List.find?_some h
  simpa using this

/-- Looking up a rewritten record gives the rewriting of the record looked up,
when the rewriting keeps the identifier. -/
theorem Store.findId_modifyId (db : Store) (id : ObjectId) (f : Node → Node)
    (hf : ∀ r, r.Id = id → (f r).Id = id) :
    (db.modifyId id f).findId id = (db.findId id).map f := by
  induction db with
  | nil => rfl
  | cons r rest ih =>
    unfold Store.findId at ih ⊢
    by_cases h : r.Id = id
    · simp [Store.modifyId, h, hf r h]
    · simp [Store.modifyId, h, ih]

/-- Two rewritings that agree on a projection give stores that agree on it. -/
theorem Store.modifyId_map {β : Type} (db : Store) (id : ObjectId) (f g : Node → Node)
    (p : Node → β) (h : ∀ r, p (f r) = p (g r)) :
    (db.modifyId id f).map p = (db.modifyId id g).map p := by
  induction db with
  | nil => rfl
  | cons r rest ih =>
    by_cases hr : r.Id = id
    · simp [Store.modifyId, hr, h]
    · simp [Store.modifyId, hr, ih]

/-- A rewriting that keeps a projection keeps it on the whole store. -/
theorem Store.modifyId_map_same {β : Type} (db : Store) (id : ObjectId) (f : Node → Node)
    (p : Node → β) (h : ∀ r, p (f r) = p r) :
    (db.modifyId id f).map p = db.map p := by
  induction db with
  | nil => rfl
  | cons r rest ih =>
    by_cases hr : r.Id = id
    · simp [Store.modifyId, hr, h]
    · simp [Store.modifyId, hr, ih]

/-- A record appended to a store that has none with its identifier is found. -/
theorem Store.findId_append (db : Store) (id : ObjectId) (r : Node)
    (h : db.findId id = none) (hr : r.Id = id) : (db ++ [r]).findId id = some r := by
  unfold Store.findId at h ⊢
  simp [List.find?_append, h, hr]

/-! ## The heartbeat cycle -/

/-- C7: per-metric failure isolation in one heartbeat cycle. If the memory
source fails, the memory of the node is 0, so is the memory written to the
stored record, and the load fields of the node and of the stored records are
what they are when the memory source succeeds: the values of the load source,
or 0 for all three if that failed too. If the load source fails, the three load
fields of the node are 0 together, so are those written to the stored record,
and the memory of the node and of the stored records is what it is when the
load source succeeds. -/
theorem keepalive_metric_isolation (n : Node) (db : Store) (now : Time)
    (fault : Option String) :
    (∀ (e : String) (m : Float64) (load : Except String LoadStat),
      (n.keepaliveCycle db now (.error e) load fault).node.Memory = 0 ∧
      (∀ doc, fault = none →
        (n.keepaliveCycle db now (.error e) load fault).db.findId n.Id = some doc →
        doc.Memory = 0) ∧
      (n.keepaliveCycle db now (.error e) load fault).node.loads
        = (n.keepaliveCycle db now (.ok m) load fault).node.loads ∧
      (n.keepaliveCycle db now (.error e) load fault).db.map Node.loads
        = (n.keepaliveCycle db now (.ok m) load fault).db.map Node.loads ∧
      (n.keepaliveCycle db now (.error e) load fault).node.loads
        = (match load with
           | .ok l => (l.Load1, l.Load5, l.Load15)
           | .error _ => (0, 0, 0))) ∧
    (∀ (e : String) (l : LoadStat) (mem : Except String Float64),
      (n.keepaliveCycle db now mem (.error e) fault).node.loads = (0, 0, 0) ∧
      (∀ doc, fault = none →
        (n.keepaliveCycle db now mem (.error e) fault).db.findId n.Id = some doc →
        doc.loads = (0, 0, 0)) ∧
      (n.keepaliveCycle db now mem (.error e) fault).node.Memory
        = (n.keepaliveCycle db now mem (.ok l) fault).node.Memory ∧
      (n.keepaliveCycle db now mem (.error e) fault).db.map Node.Memory
        = (n.keepaliveCycle db now mem (.ok l) fault).db.map Node.Memory ∧
      (n.keepaliveCycle db now mem (.error e) fault).node.Memory
        = (match mem with
           | .ok m => m
           | .error _ => 0)) := by
  constructor
  · intro e m load
    cases fault with
    | some msg =>
      cases load <;>
        simp [Node.keepaliveCycle, Node.update, Store.Apply, Node.loads]
    | none =>
      cases hfind : db.findId n.Id with
      | none =>
        cases load <;>
          simp [Node.keepaliveCycle, Node.update, Store.Apply, Node.loads, hfind]
      | some doc0 =>
        cases load <;>
          simp [Node.keepaliveCycle, Node.update, Store.Apply, Node.loads, hfind,
            applySet, SetField.assign, Store.findId_modifyId] <;>
          exact Store.modifyId_map db n.Id _ _ _ (fun r => rfl)
  · intro e l mem
    cases fault with
    | some msg =>
      cases mem <;>
        simp [Node.keepaliveCycle, Node.update, Store.Apply, Node.loads]
    | none =>
      cases hfind : db.findId n.Id with
      | none =>
        cases mem <;>
          simp [Node.keepaliveCycle, Node.update, Store.Apply, Node.loads, hfind]
      | some doc0 =>
        cases mem <;>
          simp [Node.keepaliveCycle, Node.update, Store.Apply, Node.loads, hfind,
            applySet, SetField.assign, Store.findId_modifyId] <;>
          exact Store.modifyId_map db n.Id _ _ _ (fun r => rfl)

/-- Witness of C7: a cycle of `sampleNode` against a store holding `storedNode`,
with a failing memory source and load averages 1, 2 and 3. -/
theorem keepalive_metric_isolation_witness :
    (sampleNode.keepaliveCycle [storedNode] 7 (.error "no memory")
        (.ok { Load1 := 1, Load5 := 2, Load15 := 3 }) none).node.Memory = 0 ∧
    (sampleNode.keepaliveCycle [storedNode] 7 (.error "no memory")
        (.ok { Load1 := 1, Load5 := 2, Load15 := 3 }) none).node.loads = (1, 2, 3) :=
  ⟨((keepalive_metric_isolation sampleNode [storedNode] 7 none).1 "no memory" 0
      (.ok { Load1 := 1, Load5 := 2, Load15 := 3 })).1,
   ((keepalive_metric_isolation sampleNode [storedNode] 7 none).1 "no memory" 0
      (.ok { Load1 := 1, Load5 := 2, Load15 := 3 })).2.2.2.2⟩

/-- C8, as stated, fails: the update of the cycle decodes the stored record
into the in-memory node. With `storedNode` in the store, a cycle of
`sampleNode` changes its name from "n" to "renamed" and its port from 443 to
8443. -/
theorem keepalive_reloads_identity :
    sampleNode.Name = "n" ∧
    (sampleNode.keepaliveCycle [storedNode] 7 (.ok 1)
        (.ok { Load1 := 1, Load5 := 2, Load15 := 3 }) none).node.Name = "renamed" ∧
    sampleNode.Port = 443 ∧
    (sampleNode.keepaliveCycle [storedNode] 7 (.ok 1)
        (.ok { Load1 := 1, Load5 := 2, Load15 := 3 }) none).node.Port = 8443 ∧
    (sampleNode.keepaliveCycle [storedNode] 7 (.ok 1)
        (.ok { Load1 := 1, Load5 := 2, Load15 := 3 }) none).node.identity
      ≠ sampleNode.identity := by
  refine ⟨by decide, by decide, by decide, by decide, ?_⟩
  intro h
  have hname := congrArg (fun t => t.2.1) h
  revert hname
  decide

/-- C8, amended: the heartbeat cycle never writes an identity field to the
store: the fields of every stored record other than timestamp, memory, load1,
load5 and load15 are unchanged, and no record is created (the store is left as
it is when it holds no record of the node). The identity fields of the
in-memory node are, after the cycle, those of the stored record when the update
reaches the store and finds one, and unchanged otherwise. -/
theorem keepalive_identity_frame (n : Node) (db : Store) (now : Time)
    (mem : Except String Float64) (load : Except String LoadStat)
    (fault : Option String) :
    (n.keepaliveCycle db now mem load fault).db.map Node.identity
      = db.map Node.identity ∧
    (db.findId n.Id = none → (n.keepaliveCycle db now mem load fault).db = db) ∧
    (∀ doc, fault = none → db.findId n.Id = some doc →
      (n.keepaliveCycle db now mem load fault).node.identity = doc.identity) ∧
    ((fault ≠ none ∨ db.findId n.Id = none) →
      (n.keepaliveCycle db now mem load fault).node.identity = n.identity) := by
  cases fault with
  | some msg =>
    cases mem <;> cases load <;>
      simp [Node.keepaliveCycle, Node.update, Store.Apply, Node.identity]
  | none =>
    cases hfind : db.findId n.Id with
    | none =>
      cases mem <;> cases load <;>
        simp [Node.keepaliveCycle, Node.update, Store.Apply, Node.identity, hfind]
    | some doc0 =>
      cases mem <;> cases load <;>
        simp [Node.keepaliveCycle, Node.update, Store.Apply, hfind,
          applySet, SetField.assign] <;>
        exact ⟨Store.modifyId_map_same db n.Id _ _ (fun r => rfl), rfl⟩

/-- Witness of C8: with no record in the store, a cycle of `sampleNode` leaves
its identity fields as they were; with `storedNode` in the store, they become
those of `storedNode`. -/
theorem keepalive_identity_frame_witness :
    (sampleNode.keepaliveCycle [] 7 (.ok 1) (.error "no load") none).node.identity
      = sampleNode.identity ∧
    (sampleNode.keepaliveCycle [storedNode] 7 (.ok 1) (.error "no load") none).node.identity
      = storedNode.identity :=
  ⟨(keepalive_identity_frame sampleNode [] 7 (.ok 1) (.error "no load") none).2.2.2
      (Or.inr (by decide)),
   (keepalive_identity_frame sampleNode [storedNode] 7 (.ok 1) (.error "no load") none).2.2.1
      storedNode rfl (by decide)⟩

/-! ## Registration -/

/-- C9: registration defaults. When the store holds no record of the
candidate and the candidate has no name and no type, a successful `Init`
creates a stored record with the generated name and the type "management" (and
the self node has them too). When the store holds a record with a name and a
type, or holds none and the candidate has a name and a type, a successful
`Init` leaves that name and type in the self node and in the stored record. -/
theorem Init_defaults (n : Node) (w : World) (env : InitEnv)
    (hok : (n.Init w env).err = none) :
    (w.db.findId n.Id = none → n.Name = "" → n.Typ = "" →
      (n.Init w env).node.Name = env.randName ∧
      (n.Init w env).node.Typ = Management ∧
      (n.Init w env).world.Self = some (n.Init w env).node ∧
      ∃ doc, (n.Init w env).world.db = w.db ++ [doc] ∧
        (n.Init w env).world.db.findId n.Id = some doc ∧
        doc.Name = env.randName ∧ doc.Typ = Management) ∧
    (∀ doc, w.db.findId n.Id = some doc → doc.Name ≠ "" → doc.Typ ≠ "" →
      (n.Init w env).node.Name = doc.Name ∧
      (n.Init w env).node.Typ = doc.Typ ∧
      (n.Init w env).world.Self = some (n.Init w env).node ∧
      ∃ doc1, (n.Init w env).world.db.findId n.Id = some doc1 ∧
        doc1.Name = doc.Name ∧ doc1.Typ = doc.Typ) ∧
    (w.db.findId n.Id = none → n.Name ≠ "" → n.Typ ≠ "" →
      (n.Init w env).node.Name = n.Name ∧
      (n.Init w env).node.Typ = n.Typ ∧
      (n.Init w env).world.Self = some (n.Init w env).node ∧
      ∃ doc1, (n.Init w env).world.db.findId n.Id = some doc1 ∧
        doc1.Name = n.Name ∧ doc1.Typ = n.Typ) := by
  obtain ⟨lookupFault, upsertFault, randName, now⟩ := env
  cases lookupFault with
  | some msg => simp [Node.Init, Store.FindOneId] at hok
  | none =>
    cases upsertFault with
    | some msg =>
      cases hfind : w.db.findId n.Id <;>
        simp [Node.Init, Store.FindOneId, Store.UpsertId, hfind] at hok
    | none =>
      cases hfind : w.db.findId n.Id with
      | none =>
        refine ⟨?_, ?_, ?_⟩
        · intro _ hname htyp
          simp [Node.Init, Store.FindOneId, Store.UpsertId, hfind, hname, htyp,
            applySet, SetField.assign]
          exact Store.findId_append _ _ _ hfind rfl
        · intro doc hdoc
          simp at hdoc
        · intro _ hname htyp
          simp [Node.Init, Store.FindOneId, Store.UpsertId, hfind, hname, htyp,
            applySet, SetField.assign]
          exact ⟨_, Store.findId_append _ _ _ hfind rfl, rfl, rfl⟩
      | some doc0 =>
        have hid : doc0.Id = n.Id := Store.findId_id hfind
        refine ⟨?_, ?_, ?_⟩
        · intro h
          simp at h
        · intro doc hdoc hname htyp
          simp at hdoc
          subst hdoc
          simp [Node.Init, Store.FindOneId, Store.UpsertId, hfind, hname, htyp, hid,
            applySet, SetField.assign]
          rw [Store.findId_modifyId _ _ _ (fun r _ => by simp [applySet, SetField.assign]),
            hfind]
          simp [applySet, SetField.assign]
        · intro h
          simp at h

/-- Witness of C9: `blankNode` registered in an empty store gets the name
"gen" and the type "management"; `sampleNode` registered in a store that holds
`storedNode` keeps the stored name "renamed" and type "management". -/
theorem Init_defaults_witness :
    (blankNode.Init emptyWorld calmEnv).err = none ∧
    ((blankNode.Init emptyWorld calmEnv).node.Name = "gen" ∧
      (blankNode.Init emptyWorld calmEnv).node.Typ = Management ∧
      (blankNode.Init emptyWorld calmEnv).world.Self
        = some (blankNode.Init emptyWorld calmEnv).node ∧
      ∃ doc, (blankNode.Init emptyWorld calmEnv).world.db = emptyWorld.db ++ [doc] ∧
        (blankNode.Init emptyWorld calmEnv).world.db.findId blankNode.Id = some doc ∧
        doc.Name = "gen" ∧ doc.Typ = Management) ∧
    (sampleNode.Init storedWorld calmEnv).err = none ∧
    ((sampleNode.Init storedWorld calmEnv).node.Name = "renamed" ∧
      (sampleNode.Init storedWorld calmEnv).node.Typ = "management" ∧
      (sampleNode.Init storedWorld calmEnv).world.Self
        = some (sampleNode.Init storedWorld calmEnv).node ∧
      ∃ doc1, (sampleNode.Init storedWorld calmEnv).world.db.findId sampleNode.Id = some doc1 ∧
        doc1.Name = "renamed" ∧ doc1.Typ = "management") :=
  ⟨by decide,
   (Init_defaults blankNode emptyWorld calmEnv (by decide)).1 (by decide) (by decide)
     (by decide),
   by decide,
   (Init_defaults sampleNode storedWorld calmEnv (by decide)).2.1 storedNode (by decide)
     (by decide) (by decide)⟩

/-- C10: failure semantics of registration. `Init` returns an error exactly
when the lookup fails with an error other than "not found" or the upsert fails;
a "not found" lookup is no error. When `Init` returns an error it has published
nothing, has not assigned `Self` and has started no heartbeat loop. When it
returns without error it has published exactly one "node.change" notification,
`Self` is the registered node and its heartbeat loop has been started. -/
theorem Init_failure_semantics (n : Node) (w : World) (env : InitEnv) :
    ((n.Init w env).err ≠ none ↔
      (∃ e, w.db.FindOneId env.lookupFault n.Id = .error e ∧ e ≠ .NotFoundError) ∨
      env.upsertFault ≠ none) ∧
    (w.db.FindOneId env.lookupFault n.Id = .error .NotFoundError →
      env.upsertFault = none → (n.Init w env).err = none) ∧
    ((n.Init w env).err ≠ none →
      (n.Init w env).world.events = w.events ∧
      (n.Init w env).world.Self = w.Self ∧
      (n.Init w env).world.keepalives = w.keepalives) ∧
    ((n.Init w env).err = none →
      (n.Init w env).world.events = w.events ++ ["node.change"] ∧
      (n.Init w env).world.Self = some (n.Init w env).node ∧
      (n.Init w env).world.keepalives = w.keepalives ++ [(n.Init w env).node.Id]) := by
  obtain ⟨lookupFault, upsertFault, randName, now⟩ := env
  cases lookupFault with
  | some msg => simp [Node.Init, Store.FindOneId]
  | none =>
    cases upsertFault with
    | some msg =>
      cases hfind : w.db.findId n.Id <;>
        simp [Node.Init, Store.FindOneId, Store.UpsertId, hfind]
    | none =>
      cases hfind : w.db.findId n.Id with
      | none =>
        by_cases hname : n.Name = "" <;> by_cases htyp : n.Typ = "" <;>
          simp [Node.Init, Store.FindOneId, Store.UpsertId, hfind, hname, htyp]
      | some doc0 =>
        have hid : doc0.Id = n.Id := Store.findId_id hfind
        by_cases hname : doc0.Name = "" <;> by_cases htyp : doc0.Typ = "" <;>
          simp [Node.Init, Store.FindOneId, Store.UpsertId, hfind, hname, htyp, hid]

/-- Witness of C10: registering `sampleNode` fails when the lookup fails and
leaves the world as it was; it succeeds in an empty store ("not found") and
publishes one "node.change". -/
theorem Init_failure_semantics_witness :
    (sampleNode.Init storedWorld { calmEnv with lookupFault := some "down" }).err ≠ none ∧
    ((sampleNode.Init storedWorld { calmEnv with lookupFault := some "down" }).world.events
        = storedWorld.events ∧
      (sampleNode.Init storedWorld { calmEnv with lookupFault := some "down" }).world.Self
        = storedWorld.Self ∧
      (sampleNode.Init storedWorld { calmEnv with lookupFault := some "down" }).world.keepalives
        = storedWorld.keepalives) ∧
    (sampleNode.Init emptyWorld calmEnv).err = none ∧
    ((sampleNode.Init emptyWorld calmEnv).world.events = emptyWorld.events ++ ["node.change"] ∧
      (sampleNode.Init emptyWorld calmEnv).world.Self
        = some (sampleNode.Init emptyWorld calmEnv).node ∧
      (sampleNode.Init emptyWorld calmEnv).world.keepalives
        = emptyWorld.keepalives ++ [(sampleNode.Init emptyWorld calmEnv).node.Id]) :=
  ⟨by decide,
   (Init_failure_semantics sampleNode storedWorld
      { calmEnv with lookupFault := some "down" }).2.2.1 (by decide),
   by decide,
   (Init_failure_semantics sampleNode emptyWorld calmEnv).2.2.2 (by decide)⟩

end PritunlZero
